import Mathlib

/-!
Shallow embedding of the magnet-control scripts `spectrometer_dipole.py` and
`spectrometer_quadrupole.py`.

The scripts talk to an external control system through `japc.getParam` and
`japc.setParam`.  We model one execution of a procedure as the list of
externally visible events it produces: parameter reads (`getP`, carrying the
value the control system returned), parameter writes (`setP`), fixed sleeps
(`sleepFor`), and the quadrupole script's logbook post (`elogEv`).  The
control system's responses are an oracle `env : Nat → Val` giving the value
returned by the n-th `getParam` call of the execution (counted from 0 in
program order).  Python floats are modelled as exact rationals.
-/

namespace MagnetSettings

/-- A value travelling over the control-system interface: the `STATE`
parameter is a record whose `PC` field is a status string; reference/
measurement parameters are floats; mode and function-type parameters are
strings; the `TSG41` display parameter is a float array. -/
inductive Val where
  | state (pc : String)
  | num (q : ℚ)
  | str (s : String)
  | vec (l : List ℚ)
  deriving DecidableEq

/-- Accessing the `PC` field of a `STATE` reading (`pc_status['PC']` in the
source).  On a non-record value we return `""` (which matches no status
string the scripts compare against). -/
def Val.pc : Val → String
  | .state s => s
  | _ => ""

/-- The in-place update `var_vec[67] = current_set` of the display array. -/
def Val.setIdx : Val → Nat → ℚ → Val
  | .vec l, i, q => .vec (l.set i q)
  | v, _, _ => v

/-- One externally visible step of a procedure. -/
inductive Event where
  | getP (name : String) (v : Val)
  | setP (name : String) (v : Val)
  | sleepFor (d : ℚ)
  | elogEv (amps : ℚ)
  deriving DecidableEq

/-- Reads and writes are device operations; sleeps and logbook posts are not. -/
def Event.isDeviceOp : Event → Bool
  | .getP _ _ => true
  | .setP _ _ => true
  | _ => false

/- Parameter names used by the dipole script. -/

def dSTATE : String := "RPPEF.BB4.RBIH.412435/STATE"
def dMODE : String := "RPPEF.BB4.RBIH.412435/MODE.PC"
def dFUNCTYPE : String := "RPPEF.BB4.RBIH.412435/REF.FUNC.TYPE"
def dTRIMDUR : String := "RPPEF.BB4.RBIH.412435/REF.TRIM.DURATION"
def dTRIMFIN : String := "RPPEF.BB4.RBIH.412435/REF.TRIM.FINAL"
def dREFRUN : String := "RPPEF.BB4.RBIH.412435/REF.RUN"
def dMEASI : String := "RPPEF.BB4.RBIH.412435/MEAS.I"

/- Parameter names used by the quadrupole script. -/

def qSTATE : String := "RPADA.BB4.RQNI.412432/STATE"
def qMODE : String := "RPADA.BB4.RQNI.412432/MODE.PC"
def qPLEPFIN : String := "RPADA.BB4.RQNI.412432/REF.PLEP.FINAL"
def qFUNCTYPE : String := "RPADA.BB4.RQNI.412432/REF.FUNC.TYPE"
def qREFRUN : String := "RPADA.BB4.RQNI.412432/REF.RUN"
def qMEASI : String := "RPADA.BB4.RQNI.412432/MEAS.I"
def tsgACQ : String := "TSG41.AWAKE-GUI-SUPPORT/ValueAcquisition#floatValue"
def tsgSET : String := "TSG41.AWAKE-GUI-SUPPORT/ValueSettings#floatValue"

/-- The quadratic `a * energy**2 + b * energy + c` computed by
`energy_to_current` (with the coefficients hard-coded in the source). -/
def quadFormula (energy : ℚ) : ℚ :=
  (2.974e-5 : ℚ) * energy ^ 2 + (2.647e-1 : ℚ) * energy + (3.565e-14 : ℚ)

set_option linter.unusedVariables false in
/-- Model of `energy_to_current` from `spectrometer_quadrupole.py` (lines 270-295).
The source computes `energy_use = energy * 1000` (MeV conversion) but then
applies the quadratic directly to `energy`; the dead binding is kept here. -/
def energy_to_current (energy : ℚ) : ℚ :=
  let energy_use := energy * 1000
  let a : ℚ := 2.974e-5
  let b : ℚ := 2.647e-1
  let c : ℚ := 3.565e-14
  let current := a * energy ^ 2 + b * energy + c
  if current > 362 then 362 else current

/-- Model of `dipole_turn_on(current, ramp_duration)` from `spectrometer_dipole.py`
(lines 20-137), as the list of events it produces.  `env n` is the value the
control system returns to the n-th `getParam` call of this execution.  The
read index of the post-bring-up part is 2 when the initial `STATE` read was
not `OFF` (an extra read happens after the forced turn-off) and 1 otherwise.
`current_set = float(current)` and `ramp_duration_set = float(ramp_duration)`
are identities on our exact rationals. -/
def dipole_turn_on (current ramp_duration : ℚ) (env : Nat → Val) : List Event :=
  let k := if (env 0).pc ≠ "OFF" then 2 else 1
  (if (env 0).pc ≠ "OFF" then
    [Event.getP dSTATE (env 0), Event.setP dMODE (Val.str "OFF"),
     Event.sleepFor 10, Event.getP dSTATE (env 1)]
  else
    [Event.getP dSTATE (env 0)]) ++
  [Event.setP dMODE (Val.str "ON_STANDBY"), Event.sleepFor 5,
   Event.setP dMODE (Val.str "IDLE"),
   Event.getP dSTATE (env k),
   Event.setP dFUNCTYPE (Val.str "CTRIM"), Event.sleepFor 1,
   Event.getP dFUNCTYPE (env (k + 1)),
   Event.setP dTRIMDUR (Val.num ramp_duration),
   Event.setP dTRIMFIN (Val.num current), Event.sleepFor 3,
   Event.getP dTRIMFIN (env (k + 2)), Event.getP dTRIMDUR (env (k + 3)),
   Event.getP dSTATE (env (k + 4))] ++
  (if (env (k + 4)).pc = "ARMED" then
    [Event.setP dREFRUN (Val.num 1), Event.sleepFor 1,
     Event.getP dSTATE (env (k + 5)), Event.sleepFor ramp_duration,
     Event.getP dMEASI (env (k + 6))]
  else [])

/-- Model of `quadrupole_turn_on(current)` from `spectrometer_quadrupole.py`
(lines 20-139).  The logbook post is recorded as `elogEv current` (the source
posts the value formatted as text). -/
def quadrupole_turn_on (current : ℚ) (env : Nat → Val) : List Event :=
  let k := if (env 0).pc ≠ "OFF" then 2 else 1
  (if (env 0).pc ≠ "OFF" then
    [Event.getP qSTATE (env 0), Event.setP qMODE (Val.str "OFF"),
     Event.sleepFor 10, Event.getP qSTATE (env 1)]
  else
    [Event.getP qSTATE (env 0)]) ++
  [Event.setP qMODE (Val.str "ON_STANDBY"), Event.sleepFor 10,
   Event.setP qMODE (Val.str "IDLE"),
   Event.getP qSTATE (env k),
   Event.sleepFor 5,
   Event.getP tsgACQ (env (k + 1)),
   Event.setP tsgSET ((env (k + 1)).setIdx 67 current),
   Event.elogEv current,
   Event.setP qPLEPFIN (Val.num current), Event.sleepFor 3,
   Event.getP qPLEPFIN (env (k + 2)),
   Event.setP qFUNCTYPE (Val.str "PLEP"), Event.sleepFor 1,
   Event.getP qFUNCTYPE (env (k + 3)),
   Event.getP qSTATE (env (k + 4))] ++
  (if (env (k + 4)).pc = "ARMED" then
    [Event.setP qREFRUN (Val.num 1), Event.sleepFor 1,
     Event.getP qSTATE (env (k + 5)), Event.sleepFor 3,
     Event.getP qMEASI (env (k + 6))]
  else [])

/-- Model of `change_current(current)` from `spectrometer_quadrupole.py`
(lines 142-206). -/
def change_current (current : ℚ) (env : Nat → Val) : List Event :=
  [Event.getP tsgACQ (env 0),
   Event.setP tsgSET ((env 0).setIdx 67 current),
   Event.elogEv current,
   Event.setP qPLEPFIN (Val.num current), Event.sleepFor 3,
   Event.getP qPLEPFIN (env 1),
   Event.setP qFUNCTYPE (Val.str "PLEP"), Event.sleepFor 1,
   Event.getP qFUNCTYPE (env 2),
   Event.getP qSTATE (env 3)] ++
  (if (env 3).pc = "ARMED" then
    [Event.setP qREFRUN (Val.num 1), Event.sleepFor 1,
     Event.getP qSTATE (env 4), Event.sleepFor 3,
     Event.getP qMEASI (env 5)]
  else [])

/-- Model of `dipole_turn_off()` from `spectrometer_dipole.py` (lines 171-197). -/
def dipole_turn_off (env : Nat → Val) : List Event :=
  if (env 0).pc = "OFF" then
    [Event.getP dSTATE (env 0)]
  else
    [Event.getP dSTATE (env 0), Event.setP dMODE (Val.str "OFF"),
     Event.sleepFor 10, Event.getP dSTATE (env 1)]

/-- Model of `quadrupole_turn_off()` from `spectrometer_quadrupole.py`
(lines 241-267); the post-off settle sleep is 5 seconds here. -/
def quadrupole_turn_off (env : Nat → Val) : List Event :=
  if (env 0).pc = "OFF" then
    [Event.getP qSTATE (env 0)]
  else
    [Event.getP qSTATE (env 0), Event.setP qMODE (Val.str "OFF"),
     Event.sleepFor 5, Event.getP qSTATE (env 1)]

/-- The sampling loop of `current_plot` (both scripts, identical up to the
parameter name): `timesteps` runs from 1 while `timesteps <= 100`; each pass
reads the measurement parameter, appends the reading to `current_array`,
sleeps 0.1 s and increments.  `env n` is the n-th reading (counted from 0).
Returns the event trace and the accumulated sample list. -/
def plot_loop (name : String) (env : Nat → ℚ) (timesteps : Nat)
    (tr : List Event) (current_array : List ℚ) : List Event × List ℚ :=
  if timesteps ≤ 100 then
    let current_val := env (timesteps - 1)
    plot_loop name env (timesteps + 1)
      (tr ++ [Event.getP name (Val.num current_val), Event.sleepFor (1 / 10)])
      (current_array ++ [current_val])
  else (tr, current_array)
termination_by 101 - timesteps

/-- Model of `current_plot()` from both scripts (dipole lines 140-168, quadrupole
lines 209-238): run the sampling loop from `timesteps = 1` with empty
accumulators, then compute `np.mean(current_array)` (sum divided by length).
Returns (event trace, sample series, mean). -/
def current_plot (name : String) (env : Nat → ℚ) : List Event × List ℚ × ℚ :=
  let r := plot_loop name env 1 [] []
  (r.1, r.2, r.2.sum / (r.2.length : ℚ))

/-- Outcome of the dipole script's `__main__` dispatch: which procedure gets
called with which arguments, a parser usage error, or an uncaught
`float(None)` TypeError. -/
inductive DAction where
  | doOff
  | doPlot
  | usageError
  | doOn (current ramp : ℚ)
  | crash
  deriving DecidableEq

/-- The `__main__` dispatch of `spectrometer_dipole.py` (lines 200-246).
`mode`/`current` are `None` when the flag is omitted; `ramp_arg` is the
`--ramp_duration` flag, replaced by the argparse default `15` when omitted.
The guard transcribes Python's
`arguments.mode == 'on' and arguments.current is None or
arguments.ramp_duration is None`, which parses as
`(mode == 'on' and current is None) or (ramp_duration is None)`. -/
def dipole_dispatch (mode : Option String) (current ramp_duration : Option ℚ) :
    DAction :=
  if mode = some "off" then .doOff
  else if mode = some "plot" then .doPlot
  else if (mode = some "on" ∧ current = none) ∨ ramp_duration = none then
    .usageError
  else
    match current, ramp_duration with
    | some c, some r => .doOn c r
    | _, _ => .crash

/-- The dipole script entry point: argparse replaces an omitted
`--ramp_duration` by the default `15` before the dispatch runs. -/
def dipole_main (mode : Option String) (current ramp_arg : Option ℚ) : DAction :=
  dipole_dispatch mode current (some (ramp_arg.getD 15))

/-- Outcome of the quadrupole script's `__main__` dispatch. -/
inductive QAction where
  | doOff
  | doPlot
  | doChange (current : ℚ)
  | doOn (current : ℚ)
  | crash
  deriving DecidableEq

/-- The `__main__` dispatch of `spectrometer_quadrupole.py` (lines 300-384).
In the `change` and final `on` branches a requested `--current` above 362 is
replaced by 362 before the procedure is called; the energy paths go through
`energy_to_current`.  `float(arguments.current)` with `--current` omitted
raises, modelled as `crash`. -/
def quad_main (mode : Option String) (current energy : Option ℚ) : QAction :=
  if mode = some "off" then .doOff
  else if mode = some "plot" then .doPlot
  else if mode = some "change" then
    if current = none ∧ energy ≠ none then
      match energy with
      | some e => .doChange (energy_to_current e)
      | none => .crash
    else
      match current with
      | some c => if c > 362 then .doChange 362 else .doChange c
      | none => .crash
  else if mode = some "on" ∧ current = none ∧ energy ≠ none then
    match energy with
    | some e => .doOn (energy_to_current e)
    | none => .crash
  else
    match current with
    | some c => if c > 362 then .doOn 362 else .doOn c
    | none => .crash

/-- Is this event the `REF.RUN = 1.0` write of the device whose run
parameter is `runName`? -/
def isRunWrite (runName : String) : Event → Bool
  | .setP n v => decide (n = runName) && decide (v = Val.num 1)
  | _ => false

/-- Is this event a read of the `STATE` parameter `stateName` whose `PC`
field came back `ARMED`? -/
def isArmedStateRead (stateName : String) : Event → Bool
  | .getP n v => decide (n = stateName) && decide (v.pc = "ARMED")
  | _ => false

/-- Scan a list remembering the previous element: every `REF.RUN = 1` write
must be immediately preceded by a `STATE` read that returned `ARMED`. -/
def runGuardedFrom (stateName runName : String) : Event → List Event → Bool
  | _, [] => true
  | prev, e :: rest =>
      (!isRunWrite runName e || isArmedStateRead stateName prev) &&
      runGuardedFrom stateName runName e rest

/-- A trace is run-guarded when every `REF.RUN = 1` write in it is
immediately preceded by a `STATE` read returning `ARMED` (in particular the
first element is not a run write). -/
def runGuarded (stateName runName : String) : List Event → Bool
  | [] => true
  | e :: rest => !isRunWrite runName e && runGuardedFrom stateName runName e rest

/-- Is this event a parameter write? -/
def Event.isSet : Event → Bool
  | .setP _ _ => true
  | _ => false

/-- Is this event a read of the parameter called `name`? -/
def isReadOf (name : String) : Event → Bool
  | .getP n _ => decide (n = name)
  | _ => false

/-!
Theorems settling the claims.
-/

/-- C1: for every energy `E ≥ 0`, `energy_to_current E` is at most 362; it
equals the quadratic `a*E^2 + b*E + c` (applied directly to the GeV
argument) whenever that value is at most 362, and is 362 otherwise. -/
theorem claim_C1 (E : ℚ) (hE : 0 ≤ E) :
    energy_to_current E ≤ 362 ∧
    (quadFormula E ≤ 362 → energy_to_current E = quadFormula E) ∧
    (362 < quadFormula E → energy_to_current E = 362) := by
  have hq : energy_to_current E =
      if quadFormula E > 362 then 362 else quadFormula E := by
    simp [energy_to_current, quadFormula]
  rw [hq]
  refine ⟨?_, ?_, ?_⟩ <;> intros <;> split_ifs with h <;>
    first
      | rfl
      | linarith

/-- Witness for C1 at the spec's scenario `E = 400` (where the quadratic is
about 110.6, below the clamp). -/
theorem claim_C1_witness :
    0 ≤ (400 : ℚ) ∧
    (energy_to_current 400 ≤ 362 ∧
      (quadFormula 400 ≤ 362 → energy_to_current 400 = quadFormula 400) ∧
      (362 < quadFormula 400 → energy_to_current 400 = 362)) :=
  ⟨by norm_num, claim_C1 400 (by norm_num)⟩

/-- C4: in every execution of `dipole_turn_on`, `quadrupole_turn_on` and
`change_current`, the `REF.RUN = 1` write is issued only if the device
operation immediately preceding it is a `STATE` read that returned
`ARMED`. -/
theorem claim_C4 (current ramp : ℚ) (env : Nat → Val) :
    runGuarded dSTATE dREFRUN
      ((dipole_turn_on current ramp env).filter Event.isDeviceOp) = true ∧
    runGuarded qSTATE qREFRUN
      ((quadrupole_turn_on current env).filter Event.isDeviceOp) = true ∧
    runGuarded qSTATE qREFRUN
      ((change_current current env).filter Event.isDeviceOp) = true := by
  refine ⟨?_, ?_, ?_⟩
  · by_cases h0 : (env 0).pc = "OFF"
    · by_cases h4 : (env 5).pc = "ARMED" <;>
        simp [dipole_turn_on, h0, h4, runGuarded, runGuardedFrom, isRunWrite,
          isArmedStateRead, Event.isDeviceOp, dSTATE, dMODE, dFUNCTYPE,
          dTRIMDUR, dTRIMFIN, dREFRUN, dMEASI]
    · by_cases h4 : (env 6).pc = "ARMED" <;>
        simp [dipole_turn_on, h0, h4, runGuarded, runGuardedFrom, isRunWrite,
          isArmedStateRead, Event.isDeviceOp, dSTATE, dMODE, dFUNCTYPE,
          dTRIMDUR, dTRIMFIN, dREFRUN, dMEASI]
  · by_cases h0 : (env 0).pc = "OFF"
    · by_cases h4 : (env 5).pc = "ARMED" <;>
        simp [quadrupole_turn_on, h0, h4, runGuarded, runGuardedFrom,
          isRunWrite, isArmedStateRead, Event.isDeviceOp, qSTATE, qMODE,
          qPLEPFIN, qFUNCTYPE, qREFRUN, qMEASI, tsgACQ, tsgSET]
    · by_cases h4 : (env 6).pc = "ARMED" <;>
        simp [quadrupole_turn_on, h0, h4, runGuarded, runGuardedFrom,
          isRunWrite, isArmedStateRead, Event.isDeviceOp, qSTATE, qMODE,
          qPLEPFIN, qFUNCTYPE, qREFRUN, qMEASI, tsgACQ, tsgSET]
  · by_cases h3 : (env 3).pc = "ARMED" <;>
      simp [change_current, runGuarded, runGuardedFrom, isRunWrite,
        isArmedStateRead, Event.isDeviceOp, h3, qSTATE, qMODE, qPLEPFIN,
        qFUNCTYPE, qREFRUN, qMEASI, tsgACQ, tsgSET]

/-- C9: when the state read at the start of turn-off returns `OFF`, both
turn-off procedures return after that single read: the trace is exactly the
one `STATE` read, so zero writes and no further device operations occur. -/
theorem claim_C9 (env : Nat → Val) :
    ((env 0).pc = "OFF" →
      dipole_turn_off env = [Event.getP dSTATE (env 0)] ∧
      ((dipole_turn_off env).filter Event.isSet).length = 0) ∧
    ((env 0).pc = "OFF" →
      quadrupole_turn_off env = [Event.getP qSTATE (env 0)] ∧
      ((quadrupole_turn_off env).filter Event.isSet).length = 0) := by
  constructor <;> intro h <;>
    simp [dipole_turn_off, quadrupole_turn_off, h, Event.isSet]

/-- Witness for C9 with an oracle that always reports `OFF`. -/
theorem claim_C9_witness :
    dipole_turn_off (fun _ => Val.state "OFF") =
      [Event.getP dSTATE (Val.state "OFF")] ∧
    quadrupole_turn_off (fun _ => Val.state "OFF") =
      [Event.getP qSTATE (Val.state "OFF")] :=
  ⟨((claim_C9 (fun _ => Val.state "OFF")).1 rfl).1,
   ((claim_C9 (fun _ => Val.state "OFF")).2 rfl).1⟩

/-- C5: whenever the pre-run state read (read index 5 or 6 for the turn-on
procedures depending on the initial-off branch, read index 3 for
`change_current`) returns a value other than `ARMED`, the procedure performs
no `REF.RUN` write, skips the final `MEAS.I` read, and its trace ends at that
very state read (the stated lengths are those of the traces without the run
suffix).  The embedding is total, matching the source, which returns `0` on
this path rather than raising. -/
theorem claim_C5 (current ramp : ℚ) (env : Nat → Val) :
    ((env (if (env 0).pc = "OFF" then 5 else 6)).pc ≠ "ARMED" →
      ((dipole_turn_on current ramp env).filter (isRunWrite dREFRUN)).length = 0 ∧
      ((dipole_turn_on current ramp env).filter (isReadOf dMEASI)).length = 0 ∧
      (dipole_turn_on current ramp env).getLast? =
        some (Event.getP dSTATE (env (if (env 0).pc = "OFF" then 5 else 6))) ∧
      (dipole_turn_on current ramp env).length =
        (if (env 0).pc = "OFF" then 14 else 17)) ∧
    ((env (if (env 0).pc = "OFF" then 5 else 6)).pc ≠ "ARMED" →
      ((quadrupole_turn_on current env).filter (isRunWrite qREFRUN)).length = 0 ∧
      ((quadrupole_turn_on current env).filter (isReadOf qMEASI)).length = 0 ∧
      (quadrupole_turn_on current env).getLast? =
        some (Event.getP qSTATE (env (if (env 0).pc = "OFF" then 5 else 6))) ∧
      (quadrupole_turn_on current env).length =
        (if (env 0).pc = "OFF" then 16 else 19)) ∧
    ((env 3).pc ≠ "ARMED" →
      ((change_current current env).filter (isRunWrite qREFRUN)).length = 0 ∧
      ((change_current current env).filter (isReadOf qMEASI)).length = 0 ∧
      (change_current current env).getLast? =
        some (Event.getP qSTATE (env 3)) ∧
      (change_current current env).length = 10) := by
  refine ⟨?_, ?_, ?_⟩
  · by_cases h0 : (env 0).pc = "OFF" <;> intro h <;>
      simp_all [dipole_turn_on, isRunWrite, isReadOf, dSTATE, dMODE,
        dFUNCTYPE, dTRIMDUR, dTRIMFIN, dREFRUN, dMEASI]
  · by_cases h0 : (env 0).pc = "OFF" <;> intro h <;>
      simp_all [quadrupole_turn_on, isRunWrite, isReadOf, qSTATE, qMODE,
        qPLEPFIN, qFUNCTYPE, qREFRUN, qMEASI, tsgACQ, tsgSET]
  · intro h
    simp_all [change_current, isRunWrite, isReadOf, qSTATE, qMODE, qPLEPFIN,
      qFUNCTYPE, qREFRUN, qMEASI, tsgACQ, tsgSET]

/-- Witness for C5 with an oracle that always reports `OFF` (hence never
`ARMED`), at current 100 and ramp duration 15. -/
theorem claim_C5_witness :
    ((dipole_turn_on 100 15 (fun _ => Val.state "OFF")).filter
        (isRunWrite dREFRUN)).length = 0 ∧
    ((quadrupole_turn_on 100 (fun _ => Val.state "OFF")).filter
        (isRunWrite qREFRUN)).length = 0 ∧
    ((change_current 100 (fun _ => Val.state "OFF")).filter
        (isRunWrite qREFRUN)).length = 0 :=
  ⟨((claim_C5 100 15 (fun _ => Val.state "OFF")).1 (by decide)).1,
   ((claim_C5 100 15 (fun _ => Val.state "OFF")).2.1 (by decide)).1,
   ((claim_C5 100 15 (fun _ => Val.state "OFF")).2.2 (by decide)).1⟩

/-- C6: `quadrupole_turn_on` is exactly its OFF→STANDBY→IDLE bring-up phase
(including the post-IDLE observability `STATE` read and the 5 s settle)
followed, event for event, by `change_current` run against the same oracle
shifted past the bring-up reads.  In particular both perform the same device
reads and writes, with the same parameter names, values and relative order,
from the trim write onwards. -/
theorem claim_C6 (current : ℚ) (env : Nat → Val) :
    quadrupole_turn_on current env =
      (if (env 0).pc = "OFF" then
        [Event.getP qSTATE (env 0),
         Event.setP qMODE (Val.str "ON_STANDBY"), Event.sleepFor 10,
         Event.setP qMODE (Val.str "IDLE"), Event.getP qSTATE (env 1),
         Event.sleepFor 5]
      else
        [Event.getP qSTATE (env 0), Event.setP qMODE (Val.str "OFF"),
         Event.sleepFor 10, Event.getP qSTATE (env 1),
         Event.setP qMODE (Val.str "ON_STANDBY"), Event.sleepFor 10,
         Event.setP qMODE (Val.str "IDLE"), Event.getP qSTATE (env 2),
         Event.sleepFor 5]) ++
      change_current current
        (fun i => env ((if (env 0).pc = "OFF" then 2 else 3) + i)) := by
  by_cases h0 : (env 0).pc = "OFF" <;>
    simp [quadrupole_turn_on, change_current, h0, Nat.add_comm]

/-- C2 fails on the dipole: in a concrete execution of `dipole_turn_on`
(oracle constantly `OFF`, current 100, ramp 15) the `REF.FUNC.TYPE` write
(CTRIM) sits at trace index 5, strictly before both trim writes (duration at
index 8, final current at index 9), so the trim values are not written
before the function type is set. -/
theorem claim_C2_counterexample :
    (dipole_turn_on 100 15 (fun _ => Val.state "OFF")).findIdx
        (fun e => decide (e = Event.setP dFUNCTYPE (Val.str "CTRIM"))) = 5 ∧
    (dipole_turn_on 100 15 (fun _ => Val.state "OFF")).findIdx
        (fun e => decide (e = Event.setP dTRIMDUR (Val.num 15))) = 8 ∧
    (dipole_turn_on 100 15 (fun _ => Val.state "OFF")).findIdx
        (fun e => decide (e = Event.setP dTRIMFIN (Val.num 100))) = 9 := by
  refine ⟨?_, ?_, ?_⟩ <;> decide

/-- C2 amended: in every execution of the quadrupole turn-on procedure the
trim setpoint write is followed by the 3 s wait, the read-back, and only
then the `PLEP` function-type write; in every execution of the dipole
turn-on procedure the order is reversed: the `CTRIM` function-type write
(with its 1 s wait and read-back) comes strictly before the trim writes,
which are then followed by the 3 s wait. -/
theorem claim_C2_amended (current ramp : ℚ) (env : Nat → Val) :
    (∃ l1 l2 x, quadrupole_turn_on current env =
      l1 ++ [Event.setP qPLEPFIN (Val.num current), Event.sleepFor 3,
             Event.getP qPLEPFIN x,
             Event.setP qFUNCTYPE (Val.str "PLEP")] ++ l2) ∧
    (∃ l1 l2 x, dipole_turn_on current ramp env =
      l1 ++ [Event.setP dFUNCTYPE (Val.str "CTRIM"), Event.sleepFor 1,
             Event.getP dFUNCTYPE x,
             Event.setP dTRIMDUR (Val.num ramp),
             Event.setP dTRIMFIN (Val.num current),
             Event.sleepFor 3] ++ l2) := by
  constructor
  · by_cases h0 : (env 0).pc = "OFF"
    · refine ⟨[Event.getP qSTATE (env 0),
        Event.setP qMODE (Val.str "ON_STANDBY"), Event.sleepFor 10,
        Event.setP qMODE (Val.str "IDLE"), Event.getP qSTATE (env 1),
        Event.sleepFor 5, Event.getP tsgACQ (env 2),
        Event.setP tsgSET ((env 2).setIdx 67 current),
        Event.elogEv current], ?_, env 3, ?_⟩
      · exact [Event.sleepFor 1, Event.getP qFUNCTYPE (env 4),
          Event.getP qSTATE (env 5)] ++
          (if (env 5).pc = "ARMED" then
            [Event.setP qREFRUN (Val.num 1), Event.sleepFor 1,
             Event.getP qSTATE (env 6), Event.sleepFor 3,
             Event.getP qMEASI (env 7)]
          else [])
      · simp [quadrupole_turn_on, h0]
    · refine ⟨[Event.getP qSTATE (env 0), Event.setP qMODE (Val.str "OFF"),
        Event.sleepFor 10, Event.getP qSTATE (env 1),
        Event.setP qMODE (Val.str "ON_STANDBY"), Event.sleepFor 10,
        Event.setP qMODE (Val.str "IDLE"), Event.getP qSTATE (env 2),
        Event.sleepFor 5, Event.getP tsgACQ (env 3),
        Event.setP tsgSET ((env 3).setIdx 67 current),
        Event.elogEv current], ?_, env 4, ?_⟩
      · exact [Event.sleepFor 1, Event.getP qFUNCTYPE (env 5),
          Event.getP qSTATE (env 6)] ++
          (if (env 6).pc = "ARMED" then
            [Event.setP qREFRUN (Val.num 1), Event.sleepFor 1,
             Event.getP qSTATE (env 7), Event.sleepFor 3,
             Event.getP qMEASI (env 8)]
          else [])
      · simp [quadrupole_turn_on, h0]
  · by_cases h0 : (env 0).pc = "OFF"
    · refine ⟨[Event.getP dSTATE (env 0),
        Event.setP dMODE (Val.str "ON_STANDBY"), Event.sleepFor 5,
        Event.setP dMODE (Val.str "IDLE"), Event.getP dSTATE (env 1)],
        ?_, env 2, ?_⟩
      · exact [Event.getP dTRIMFIN (env 3), Event.getP dTRIMDUR (env 4),
          Event.getP dSTATE (env 5)] ++
          (if (env 5).pc = "ARMED" then
            [Event.setP dREFRUN (Val.num 1), Event.sleepFor 1,
             Event.getP dSTATE (env 6), Event.sleepFor ramp,
             Event.getP dMEASI (env 7)]
          else [])
      · simp [dipole_turn_on, h0]
    · refine ⟨[Event.getP dSTATE (env 0), Event.setP dMODE (Val.str "OFF"),
        Event.sleepFor 10, Event.getP dSTATE (env 1),
        Event.setP dMODE (Val.str "ON_STANDBY"), Event.sleepFor 5,
        Event.setP dMODE (Val.str "IDLE"), Event.getP dSTATE (env 2)],
        ?_, env 3, ?_⟩
      · exact [Event.getP dTRIMFIN (env 4), Event.getP dTRIMDUR (env 5),
          Event.getP dSTATE (env 6)] ++
          (if (env 6).pc = "ARMED" then
            [Event.setP dREFRUN (Val.num 1), Event.sleepFor 1,
             Event.getP dSTATE (env 7), Event.sleepFor ramp,
             Event.getP dMEASI (env 8)]
          else [])
      · simp [dipole_turn_on, h0]

/-- C3 fails on the ramp-duration half: invoking the dipole script with
`--mode on --current 100` and `--ramp_duration` omitted is not rejected;
argparse substitutes the default 15 and the dispatch reaches
`dipole_turn_on(100, 15)`. -/
theorem claim_C3_counterexample :
    dipole_main (some "on") (some 100) none = DAction.doOn 100 15 ∧
    dipole_main (some "on") (some 100) none ≠ DAction.usageError := by
  refine ⟨?_, ?_⟩ <;> decide

/-- C3 amended: with `--mode on`, omitting `--current` is rejected with a
usage error before any device interaction (whatever `--ramp_duration` is),
but omitting `--ramp_duration` is not rejected: the argparse default 15 is
substituted and the full turn-on procedure runs with ramp duration 15. -/
theorem claim_C3_amended (c : ℚ) (ramp_arg : Option ℚ) :
    dipole_main (some "on") none ramp_arg = DAction.usageError ∧
    dipole_main (some "on") (some c) none = DAction.doOn c 15 := by
  constructor <;> simp [dipole_main, dipole_dispatch]

/-- C10: invoking the dipole script with `--mode` omitted but `--current`
supplied falls through to the final else branch and runs the full turn-on
procedure with the default ramp duration 15, instead of erroring or doing
nothing. -/
theorem claim_C10 (c : ℚ) :
    dipole_main none (some c) none = DAction.doOn c 15 := by
  simp [dipole_main, dipole_dispatch]

/-- C8: every `--current` request above 362 in the quadrupole script's `on`
or `change` mode reaches the corresponding procedure as exactly 362, and the
procedure then writes 362 to the `REF.PLEP.FINAL` device setpoint. -/
theorem claim_C8 (c : ℚ) (energy : Option ℚ) (env : Nat → Val)
    (h : 362 < c) :
    quad_main (some "change") (some c) energy = QAction.doChange 362 ∧
    quad_main (some "on") (some c) energy = QAction.doOn 362 ∧
    Event.setP qPLEPFIN (Val.num 362) ∈ change_current 362 env ∧
    Event.setP qPLEPFIN (Val.num 362) ∈ quadrupole_turn_on 362 env := by
  refine ⟨?_, ?_, ?_, ?_⟩
  · simp [quad_main, h]
  · simp [quad_main, h]
  · simp [change_current]
  · by_cases h0 : (env 0).pc = "OFF" <;> simp [quadrupole_turn_on, h0]

/-- Witness for C8 at the spec's scenario of a 500 A request. -/
theorem claim_C8_witness :
    quad_main (some "change") (some 500) none = QAction.doChange 362 ∧
    quad_main (some "on") (some 500) none = QAction.doOn 362 ∧
    Event.setP qPLEPFIN (Val.num 362) ∈
      change_current 362 (fun _ => Val.state "OFF") ∧
    Event.setP qPLEPFIN (Val.num 362) ∈
      quadrupole_turn_on 362 (fun _ => Val.state "OFF") :=
  claim_C8 500 none (fun _ => Val.state "OFF") (by norm_num)

/-- Helper: a flatMap producing singletons is a map. -/
theorem flatMap_singleton_map {α β : Type} (f : α → β) (l : List α) :
    (l.flatMap fun x => [f x]) = l.map f := by
  induction l with
  | nil => rfl
  | cons a l ih => simp [List.flatMap_cons, ih]

/-- Invariant of the sampling loop: starting at step `t` (with `t + n = 101`,
`t ≥ 1`), the loop appends one read event, one 0.1 s sleep and one sample
per remaining step, the j-th of them using reading `env (t - 1 + j)`. -/
theorem plot_loop_spec (name : String) (env : Nat → ℚ) :
    ∀ (n t : Nat) (tr : List Event) (arr : List ℚ), t + n = 101 → 1 ≤ t →
      plot_loop name env t tr arr =
        (tr ++ (List.range n).flatMap (fun j =>
            [Event.getP name (Val.num (env (t - 1 + j))),
             Event.sleepFor (1 / 10)]),
         arr ++ (List.range n).map (fun j => env (t - 1 + j))) := by
  intro n
  induction n with
  | zero =>
    intro t tr arr ht h1
    have he : t = 101 := by omega
    subst he
    rw [plot_loop]
    simp
  | succ n ih =>
    intro t tr arr ht h1
    rw [plot_loop]
    have hle : t ≤ 100 := by omega
    rw [if_pos hle]
    rw [ih (t + 1) _ _ (by omega) (by omega)]
    have h2 : ∀ j, t + 1 - 1 + j = t + j := fun j => by omega
    have h3 : ∀ j, t - 1 + (j + 1) = t + j := fun j => by omega
    simp [List.range_succ_eq_map, List.flatMap_cons, List.flatMap_map,
      List.map_map, Function.comp, Nat.succ_eq_add_one, h2, h3,
      List.append_assoc]

/-- C7: `current_plot` performs exactly 100 reads of the measurement
parameter (in order, the n-th read returning `env n`), appends each reading
in order to the series, and reports as mean the sum of exactly those 100
readings divided by 100. -/
theorem claim_C7 (name : String) (env : Nat → ℚ) :
    (current_plot name env).1.filter (isReadOf name) =
      (List.range 100).map (fun i => Event.getP name (Val.num (env i))) ∧
    (current_plot name env).2.1 = (List.range 100).map (fun i => env i) ∧
    (current_plot name env).2.2 =
      ((List.range 100).map (fun i => env i)).sum / 100 := by
  have h := plot_loop_spec name env 100 1 [] [] (by norm_num) (by norm_num)
  refine ⟨?_, ?_, ?_⟩
  · simp only [current_plot, h, List.nil_append, List.filter_flatMap]
    rw [show (fun j => List.filter (isReadOf name)
        [Event.getP name (Val.num (env (1 - 1 + j))),
         Event.sleepFor (1 / 10)]) =
      fun j => [Event.getP name (Val.num (env j))] from ?_]
    · exact flatMap_singleton_map _ _
    · funext j
      simp [isReadOf, List.filter]
  · simp [current_plot, h]
  · simp [current_plot, h]

end MagnetSettings
